import Mathlib

/-!
# Verification of the genrl TD3 agent (src/genrl/deep/agents/td3/td3.py)

A shallow embedding, over `ℚ` and `List`, of the algorithmic core of the
`TD3` class: the bootstrapped critic-target computation (`get_q_loss`),
the delayed policy-update loop (`update_params`), the polyak target
synchronization, exploration-noise action selection (`select_action`),
and the warmup / timeout handling of the training driver (`learn`).

The actor and critic networks, the environment and the noise process are
external collaborators of the core (spec §1); their outputs on a given
batch enter the embedding as plain inputs.  Tensors are modelled as
`List ℚ` of elementwise values; where a claim speaks about gradient
tracking, a tensor carries its `requires_grad` flag as a `Bool`.
-/

namespace TD3Spec

/-- Ternary `zipWith`, used to model elementwise arithmetic over three
aligned batch tensors. -/
def zipWith3 (f : α → β → γ → δ) : List α → List β → List γ → List δ
  | a :: as, b :: bs, c :: cs => f a b c :: zipWith3 f as bs cs
  | _, _, _ => []

/-- A tensor value together with its autograd flag.  `torch.no_grad()`
blocks produce tensors with `requires_grad = false`. -/
structure Tensor where
  data : List ℚ
  requires_grad : Bool
deriving DecidableEq

/-- `TD3.get_q_loss` line 133: `target_q = torch.min(target_q1, target_q2)`:
the elementwise minimum of the two target-critic outputs, both evaluated at
`(next_state, target_actor action)`.  `target_q1`/`target_q2` are the outputs
of the external target critics on the batch. -/
def target_q (target_q1 target_q2 : List ℚ) : List ℚ :=
  List.zipWith min target_q1 target_q2

/-- `TD3.get_q_loss` line 135:
`target = reward + gamma * (1 - done) * target_q`, elementwise over the
batch.  `done` is the stored termination flag cast to `{0, 1}`. -/
def bellman_target (gamma : ℚ) (reward done tq : List ℚ) : List ℚ :=
  zipWith3 (fun r d t => r + gamma * (1 - d) * t) reward done tq

/-- `TD3.get_q_loss` lines 114-135: the whole target computation runs inside
`with torch.no_grad()`, so the resulting tensor carries
`requires_grad = false`.  Inputs are the target-critic outputs on
`(next_state, target_actor action)` plus the sampled rewards and dones. -/
def get_q_loss_target (gamma : ℚ) (reward done target_q1 target_q2 : List ℚ) :
    Tensor :=
  { data := bellman_target gamma reward done (target_q target_q1 target_q2),
    requires_grad := false }

/-- `TD3.update_params` lines 178-179: one in-place polyak step on a single
parameter, `param_target.data.mul_(polyak)` then
`param_target.data.add_((1 - polyak) * param.data)`. -/
def polyakUpdate (polyak θ_target θ : ℚ) : ℚ :=
  θ_target * polyak + (1 - polyak) * θ

/-- `TD3.update_params` lines 174-179: the target-synchronization loop
`for param, param_target in zip(self.ac.parameters(), self.ac_target.parameters())`,
applied to the aligned lists of parameter values. -/
def targetSync (polyak : ℚ) (targets onlines : List ℚ) : List ℚ :=
  List.zipWith (fun θt θ => polyakUpdate polyak θt θ) targets onlines

/-- `np.clip(x, -a_max, a_max)` on one component (NumPy clips with the upper
bound applied last: `min(a_max, max(-a_max, x))`). -/
def clip (a_max x : ℚ) : ℚ :=
  min a_max (max (-a_max) x)

/-- `TD3.select_action` lines 86-101.  The target actor is an external
collaborator; its output `[0]` on `(state, deterministic)` enters as
`action₀`.  `noise` is `some n` when a noise process is configured, and `n`
is the vector the process returns for this call.  The code adds the noise
whenever the process is configured — the `deterministic` argument is passed
only to the actor query and does not guard the noise addition — and then
clips elementwise into `[-a_max, a_max]`. -/
def select_action (a_max : ℚ) (noise : Option (List ℚ)) (action₀ : List ℚ)
    (deterministic : Bool) : List ℚ :=
  let action := action₀
  let action :=
    match noise with
    | some n => List.zipWith (· + ·) action n
    | none => action
  action.map (clip a_max)

/-- The clipped nominal action with no noise added: what the spec says a
`deterministic = true` call must return. -/
def clippedNominalAction (a_max : ℚ) (action₀ : List ℚ) : List ℚ :=
  action₀.map (clip a_max)

/-- Gradient-tracking flags and per-network gradient-step counters across
`TD3.update_params`.  `_create_model` line 58 aliases `ac.qf1 = ac.critic`,
so `ac.critic.parameters()` are exactly critic-1's parameters, while
`ac.qf2` is a separately constructed model; the two flags track
`requires_grad` of the two critics' parameter sets.  A parameter set
"receives a gradient step" in an iteration when its gradients are computed
by the backward pass, i.e. when its `requires_grad` flag is set there. -/
structure UpdateState where
  qf1_requires_grad : Bool
  qf2_requires_grad : Bool
  qf1_steps : ℕ
  qf2_steps : ℕ
  actor_steps : ℕ
  target_syncs : ℕ
deriving DecidableEq

/-- One inner iteration of `TD3.update_params` (lines 149-182) at intra-call
counter `timestep`:
* lines 152-156: critic backward + `optimizer_q.step()` — each critic's
  parameters receive a gradient step exactly when their `requires_grad` is
  currently set;
* line 159: delayed block guard `timestep % policy_frequency == 0`;
* lines 161-162: freeze `q_params` (critic-1 and critic-2 parameters);
* lines 164-167: actor backward + `optimizer_policy.step()`;
* lines 170-171: unfreeze `self.ac.critic.parameters()` — critic-1 only,
  since `ac.critic` is the alias of `qf1`;
* lines 174-179: target-network synchronization. -/
def updateIter (policy_frequency timestep : ℕ) (s : UpdateState) : UpdateState :=
  let s :=
    { s with
      qf1_steps := s.qf1_steps + (if s.qf1_requires_grad then 1 else 0),
      qf2_steps := s.qf2_steps + (if s.qf2_requires_grad then 1 else 0) }
  if timestep % policy_frequency = 0 then
    let s := { s with qf1_requires_grad := false, qf2_requires_grad := false }
    let s := { s with actor_steps := s.actor_steps + 1 }
    let s := { s with qf1_requires_grad := true }
    { s with target_syncs := s.target_syncs + 1 }
  else
    s

/-- `TD3.update_params(update_interval)`: the loop
`for timestep in range(update_interval)` over `updateIter`. -/
def update_params (policy_frequency update_interval : ℕ) (s : UpdateState) :
    UpdateState :=
  (List.range update_interval).foldl
    (fun s t => updateIter policy_frequency t s) s

/-- The agent's parameter state right after `_create_model`: every online
parameter trainable, no gradient steps taken yet. -/
def initialState : UpdateState :=
  { qf1_requires_grad := true
    qf2_requires_grad := true
    qf1_steps := 0
    qf2_steps := 0
    actor_steps := 0
    target_syncs := 0 }

/-- Where the training driver takes its action from on a given step:
`random` is `self.env.sample()`, `policy` is `self.select_action(state)`. -/
inductive ActionSource
  | random
  | policy
deriving DecidableEq

/-- `TD3.learn` lines 196-201: the warmup branch.  The code selects the
policy action only when `timestep > self.start_steps` (strictly greater),
and the uniform random action otherwise. -/
def learnActionSource (start_steps timestep : ℕ) : ActionSource :=
  if start_steps < timestep then ActionSource.policy else ActionSource.random

/-- The message of the exception raised by `TD3._create_model` on a
discrete action space (lines 45-48, with the class name formatted in). -/
def discreteEnvMessage : String :=
  "Discrete Environments not supported for TD3."

/-- The error taxonomy of the agent's constructor.  The spec (§7) names the
discrete-action-space exception `UnsupportedEnvironmentError`; in the code
it is a generic `Exception` carrying `discreteEnvMessage`. -/
inductive TD3Error
  | UnsupportedEnvironmentError (msg : String)
deriving DecidableEq

/-- The result of `get_env_properties(self.env)` consumed by
`_create_model` (line 44). -/
structure EnvProperties where
  state_dim : ℕ
  action_dim : ℕ
  discrete : Bool
deriving DecidableEq

/-- The training state `_create_model` assembles after the discrete check:
noise process (lines 49-52), online models, the deep-copied target pair
with gradient tracking disabled on every target parameter (lines 63-67),
the replay buffer with the configured capacity (line 69), and the two
optimizers. -/
structure TrainingState where
  noise_initialized : Bool
  target_requires_grad : Bool
  replay_capacity : ℕ
deriving DecidableEq

/-- `TD3._create_model` lines 43-75.  The discrete check comes first: on a
discrete action space it raises before the noise process, the models, the
target copy, the replay buffer or the optimizers are built; otherwise the
training state is assembled. -/
def create_model (props : EnvProperties) (has_noise : Bool)
    (replay_size : ℕ) : Except TD3Error TrainingState :=
  if props.discrete then
    Except.error (TD3Error.UnsupportedEnvironmentError discreteEnvMessage)
  else
    Except.ok
      { noise_initialized := has_noise
        target_requires_grad := false
        replay_capacity := replay_size }

/-- `TD3.learn` lines 211-216: the per-environment done override computed
just before the transition is pushed into the replay buffer,
`[False if episode_len[i] == self.max_ep_len else done[i] for i, ...]`.
`episode_len` holds the episode lengths after this step's increment
(line 207); `done` is what the environment reported. -/
def doneOverride (max_ep_len : ℕ) (episode_len : List ℕ) (done : List Bool) :
    List Bool :=
  List.zipWith (fun len d => if len = max_ep_len then false else d)
    episode_len done

/-! ## Helper lemmas -/

theorem zipWith3_getElem? (f : α → β → γ → δ) (as : List α) (bs : List β)
    (cs : List γ) (i : ℕ) (a : α) (b : β) (c : γ)
    (ha : as[i]? = some a) (hb : bs[i]? = some b) (hc : cs[i]? = some c) :
    (zipWith3 f as bs cs)[i]? = some (f a b c) := by
  induction as generalizing bs cs i with
  | nil => simp at ha
  | cons x xs ih =>
    cases bs with
    | nil => simp at hb
    | cons y ys =>
      cases cs with
      | nil => simp at hc
      | cons z zs =>
        cases i with
        | zero =>
          simp only [List.getElem?_cons_zero, Option.some.injEq] at ha hb hc
          simp [zipWith3, ha, hb, hc]
        | succ n =>
          simp only [List.getElem?_cons_succ] at ha hb hc
          simpa [zipWith3] using ih ys zs n ha hb hc

theorem convex_combination_bounds (p a b : ℚ) (h0 : 0 ≤ p) (h1 : p ≤ 1) :
    min a b ≤ p * a + (1 - p) * b ∧ p * a + (1 - p) * b ≤ max a b := by
  rcases le_total a b with hab | hab
  · rw [min_eq_left hab, max_eq_right hab]
    constructor <;> nlinarith [mul_nonneg h0 (sub_nonneg.2 hab)]
  · rw [min_eq_right hab, max_eq_left hab]
    constructor <;>
      nlinarith [mul_nonneg (sub_nonneg.2 h1) (sub_nonneg.2 hab)]

/-! ## Claim theorems -/

/-- C3: in `get_q_loss`, the bootstrapped value `target_q` is the
elementwise minimum of the two target-critic outputs `tq1`, `tq2` — when
they differ it is neither their average nor their maximum — and the whole
target computation runs under `torch.no_grad()`, so the result carries
`requires_grad = false`. -/
theorem target_q_is_elementwise_min (gamma : ℚ) (reward done tq1 tq2 : List ℚ)
    (i : ℕ) (a b : ℚ) (ha : tq1[i]? = some a) (hb : tq2[i]? = some b) :
    (target_q tq1 tq2)[i]? = some (min a b)
    ∧ (a ≠ b → (target_q tq1 tq2)[i]? ≠ some ((a + b) / 2)
        ∧ (target_q tq1 tq2)[i]? ≠ some (max a b))
    ∧ (get_q_loss_target gamma reward done tq1 tq2).requires_grad = false := by
  have hmin : (target_q tq1 tq2)[i]? = some (min a b) := by
    rw [target_q, List.getElem?_zipWith_eq_some]
    exact ⟨a, b, ha, hb, rfl⟩
  refine ⟨hmin, fun hne => ⟨?_, ?_⟩, rfl⟩
  · rw [hmin]
    intro hcontra
    have heq : min a b = (a + b) / 2 := Option.some.inj hcontra
    rcases le_total a b with hab | hab
    · rw [min_eq_left hab] at heq
      exact hne (by linarith)
    · rw [min_eq_right hab] at heq
      exact hne (by linarith)
  · rw [hmin]
    intro hcontra
    have heq : min a b = max a b := Option.some.inj hcontra
    rcases le_total a b with hab | hab
    · rw [min_eq_left hab, max_eq_right hab] at heq
      exact hne heq
    · rw [min_eq_right hab, max_eq_left hab] at heq
      exact hne heq.symm

theorem target_q_is_elementwise_min_witness :
    (target_q [(1 : ℚ), 3] [2, 2])[0]? = some (min 1 2)
    ∧ ((1 : ℚ) ≠ 2 → (target_q [(1 : ℚ), 3] [2, 2])[0]? ≠ some ((1 + 2) / 2)
        ∧ (target_q [(1 : ℚ), 3] [2, 2])[0]? ≠ some (max 1 2))
    ∧ (get_q_loss_target (99/100) [1] [0] [(1 : ℚ), 3] [2, 2]).requires_grad
        = false :=
  target_q_is_elementwise_min (99/100) [1] [0] [(1 : ℚ), 3] [2, 2] 0 1 2
    rfl rfl

/-- C4: for every transition of the batch, the critic regression target is
`y = r + γ·(1-d)·target_q`; with `0 < γ < 1` and `d ∈ {0,1}`, a terminal
transition (`d = 1`) yields `y = r` exactly, independent of `target_q`. -/
theorem bellman_target_formula (gamma : ℚ) (hg0 : 0 < gamma)
    (hg1 : gamma < 1) (reward done tq : List ℚ) (i : ℕ) (r d t : ℚ)
    (hr : reward[i]? = some r) (hd : done[i]? = some d) (ht : tq[i]? = some t)
    (hd01 : d = 0 ∨ d = 1) :
    (bellman_target gamma reward done tq)[i]? = some (r + gamma * (1 - d) * t)
    ∧ (d = 1 → (bellman_target gamma reward done tq)[i]? = some r) := by
  have hform : (bellman_target gamma reward done tq)[i]?
      = some (r + gamma * (1 - d) * t) :=
    zipWith3_getElem? _ reward done tq i r d t hr hd ht
  refine ⟨hform, fun hd1 => ?_⟩
  rw [hform, hd1]
  norm_num

theorem bellman_target_formula_witness :
    ((bellman_target (99/100) [(1 : ℚ)] [1] [5])[0]?
        = some (1 + (99/100) * (1 - 1) * 5)
      ∧ ((1 : ℚ) = 1 →
          (bellman_target (99/100) [(1 : ℚ)] [1] [5])[0]? = some 1))
    ∧ (bellman_target (99/100) [(1 : ℚ)] [0] [5])[0]? = some (119/20) := by
  refine ⟨bellman_target_formula (99/100) (by norm_num) (by norm_num)
    [1] [1] [5] 0 1 1 5 rfl rfl rfl (Or.inr rfl), ?_⟩
  have h := (bellman_target_formula (99/100) (by norm_num) (by norm_num)
    [1] [0] [5] 0 1 0 5 rfl rfl rfl (Or.inl rfl)).1
  rw [h]
  norm_num

/-- C5: one polyak synchronization step with coefficient `p ∈ [0,1]` maps
every target parameter to `p·θ_target_old + (1-p)·θ_online`, a convex
combination lying between `θ_target_old` and `θ_online`; it equals
`θ_target_old` when `p = 1` and `θ_online` when `p = 0`. -/
theorem polyak_sync_convex (p : ℚ) (h0 : 0 ≤ p) (h1 : p ≤ 1)
    (targets onlines : List ℚ) (i : ℕ) (θt θ : ℚ)
    (ht : targets[i]? = some θt) (ho : onlines[i]? = some θ) :
    (targetSync p targets onlines)[i]? = some (p * θt + (1 - p) * θ)
    ∧ min θt θ ≤ polyakUpdate p θt θ
    ∧ polyakUpdate p θt θ ≤ max θt θ
    ∧ (p = 1 → polyakUpdate p θt θ = θt)
    ∧ (p = 0 → polyakUpdate p θt θ = θ) := by
  have hval : polyakUpdate p θt θ = p * θt + (1 - p) * θ := by
    rw [polyakUpdate]; ring
  have hbounds := convex_combination_bounds p θt θ h0 h1
  refine ⟨?_, ?_, ?_, fun hp => ?_, fun hp => ?_⟩
  · rw [targetSync, List.getElem?_zipWith_eq_some]
    exact ⟨θt, θ, ht, ho, hval⟩
  · rw [hval]; exact hbounds.1
  · rw [hval]; exact hbounds.2
  · rw [hval, hp]; ring
  · rw [hval, hp]; ring

theorem polyak_sync_convex_witness :
    (targetSync (1/2) [(0 : ℚ)] [2])[0]? = some ((1/2) * 0 + (1 - 1/2) * 2)
    ∧ min (0 : ℚ) 2 ≤ polyakUpdate (1/2) 0 2
    ∧ polyakUpdate (1/2) (0 : ℚ) 2 ≤ max 0 2
    ∧ ((1/2 : ℚ) = 1 → polyakUpdate (1/2) (0 : ℚ) 2 = 0)
    ∧ ((1/2 : ℚ) = 0 → polyakUpdate (1/2) (0 : ℚ) 2 = 2) :=
  polyak_sync_convex (1/2) (by norm_num) (by norm_num) [0] [2] 0 0 2 rfl rfl

/-- C1 (code bug): `update_params` freezes `q_params` — the parameters of
both critics — before the actor step, but the unfreeze loop iterates over
`self.ac.critic.parameters()`, which is critic-1 only (`ac.qf1 = ac.critic`
at `_create_model` line 58).  After a single iteration running the delayed
block from the freshly constructed agent, critic-2's parameters are still
frozen, contradicting the claim that both critics are trainable again. -/
theorem update_params_leaves_qf2_frozen :
    (update_params 2 1 initialState).qf2_requires_grad = false
    ∧ (update_params 2 1 initialState).qf1_requires_grad = true := by
  decide

/-- C2 (code bug): with `policy_frequency = 2` and `update_interval = 3`,
the actor and target updates do occur on exactly `⌈3/2⌉ = 2` iterations
(those with counter `0` and `2`) and target syncs happen only there — but
because the delayed block of iteration `0` leaves critic-2 frozen, critic-2
receives a gradient step on only `1` of the `3` iterations, not on all of
them as the claim requires; critic-1 receives all `3`. -/
theorem update_params_qf2_misses_gradient_steps :
    (update_params 2 3 initialState).qf1_steps = 3
    ∧ (update_params 2 3 initialState).qf2_steps = 1
    ∧ (update_params 2 3 initialState).qf2_steps ≠ 3
    ∧ (update_params 2 3 initialState).actor_steps = 2
    ∧ (update_params 2 3 initialState).target_syncs = 2 := by
  decide

/-- C6 counterexample: with a noise process configured, a call with
`deterministic = true` does NOT return the clipped nominal action — the
noise is still added, because lines 96-97 add it whenever `self.noise` is
configured, without consulting `deterministic`. -/
theorem select_action_deterministic_still_noisy :
    select_action 1 (some [1/2]) [0] true ≠ clippedNominalAction 1 [0]
    ∧ select_action 1 (some [1/2]) [0] true = [1/2] := by
  have h1 : select_action 1 (some [1/2]) [0] true = [1/2] := by
    show [clip 1 ((0 : ℚ) + 1/2)] = [1/2]
    rw [clip]
    norm_num
  have h2 : clippedNominalAction 1 [(0 : ℚ)] = [0] := by
    show [clip 1 (0 : ℚ)] = [0]
    rw [clip]
    norm_num
  refine ⟨?_, h1⟩
  rw [h1, h2]
  intro h
  simp only [List.cons.injEq, and_true] at h
  norm_num at h

/-- C6 amended: when a noise process is configured, `select_action` adds
the sampled noise vector elementwise to the nominal action in BOTH modes —
the `deterministic` flag is passed only to the target-actor query and never
suppresses the noise — and then clips; without a configured noise process
the clipped nominal action is returned. -/
theorem select_action_noise_unconditional (a_max : ℚ) (n action₀ : List ℚ)
    (d : Bool) :
    select_action a_max (some n) action₀ d
      = (List.zipWith (· + ·) action₀ n).map (clip a_max)
    ∧ select_action a_max none action₀ d = clippedNominalAction a_max action₀
    ∧ select_action a_max (some n) action₀ true
      = select_action a_max (some n) action₀ false :=
  ⟨rfl, rfl, rfl⟩

/-- C7: for every call, input nominal action and noise realization, every
component of the action returned by `select_action` lies in the symmetric
bound `[-a_max, a_max]`. -/
theorem select_action_bounded (a_max : ℚ) (ha : 0 ≤ a_max)
    (noise : Option (List ℚ)) (action₀ : List ℚ) (d : Bool) (x : ℚ)
    (hx : x ∈ select_action a_max noise action₀ d) :
    -a_max ≤ x ∧ x ≤ a_max := by
  have hx' : ∃ y, x = clip a_max y := by
    cases noise with
    | none =>
      obtain ⟨y, -, hy⟩ := List.mem_map.mp hx
      exact ⟨y, hy.symm⟩
    | some n =>
      obtain ⟨y, -, hy⟩ := List.mem_map.mp hx
      exact ⟨y, hy.symm⟩
  obtain ⟨y, rfl⟩ := hx'
  rw [clip]
  constructor
  · exact le_min (by linarith) (le_max_left _ _)
  · exact min_le_left _ _

theorem select_action_bounded_witness :
    0 ≤ (1 : ℚ)
    ∧ (1 : ℚ) ∈ select_action 1 (some [5]) [0] false
    ∧ (-(1 : ℚ) ≤ 1 ∧ (1 : ℚ) ≤ 1) := by
  refine ⟨by norm_num, ?_, ?_⟩
  · show (1 : ℚ) ∈ [clip 1 (0 + 5)]
    have : clip 1 ((0 : ℚ) + 5) = 1 := by
      rw [clip]
      norm_num
    rw [this]
    exact List.mem_singleton.mpr rfl
  · refine select_action_bounded 1 (by norm_num) (some [5]) [0] false 1 ?_
    show (1 : ℚ) ∈ [clip 1 (0 + 5)]
    have : clip 1 ((0 : ℚ) + 5) = 1 := by
      rw [clip]
      norm_num
    rw [this]
    exact List.mem_singleton.mpr rfl

/-- C8 counterexample: at a step whose count equals `start_steps` exactly
(here both are `5`), the claim says the action comes from the policy, but
the code's strict comparison `timestep > self.start_steps` sends it through
`env.sample()` — the random branch. -/
theorem warmup_boundary_is_random :
    learnActionSource 5 5 = ActionSource.random
    ∧ ActionSource.random ≠ ActionSource.policy := by
  decide

/-- C8 amended: the training driver samples a uniform random action from
the action space on every step whose count is less than or EQUAL to
`start_steps`, and takes the policy action from `select_action` on every
step whose count is strictly greater than `start_steps`. -/
theorem warmup_then_policy (start_steps t : ℕ) :
    (t ≤ start_steps → learnActionSource start_steps t = ActionSource.random)
    ∧ (start_steps < t →
        learnActionSource start_steps t = ActionSource.policy) := by
  constructor
  · intro h
    rw [learnActionSource, if_neg (by omega)]
  · intro h
    rw [learnActionSource, if_pos h]

theorem warmup_then_policy_witness :
    learnActionSource 5 3 = ActionSource.random
    ∧ learnActionSource 5 7 = ActionSource.policy :=
  ⟨(warmup_then_policy 5 3).1 (by decide), (warmup_then_policy 5 7).2
    (by decide)⟩

/-- C9: `_create_model` fails with the discrete-action-space error — the
error the spec's taxonomy names `UnsupportedEnvironmentError` — if and only
if the environment's action space is discrete, and it does so before any
training state (noise process, models, target copy, buffer, optimizers) is
built; on a continuous action space it returns the assembled training
state, whose target parameters have gradient tracking disabled. -/
theorem create_model_discrete_error (props : EnvProperties) (has_noise : Bool)
    (replay_size : ℕ) :
    (props.discrete = true →
      create_model props has_noise replay_size
        = Except.error (TD3Error.UnsupportedEnvironmentError
            discreteEnvMessage))
    ∧ (props.discrete = false →
        create_model props has_noise replay_size
          = Except.ok
              { noise_initialized := has_noise
                target_requires_grad := false
                replay_capacity := replay_size }) := by
  constructor
  · intro h
    rw [create_model, if_pos h]
  · intro h
    rw [create_model, if_neg (by simp [h])]

theorem create_model_discrete_error_witness :
    create_model ⟨4, 2, true⟩ false 1000
      = Except.error (TD3Error.UnsupportedEnvironmentError discreteEnvMessage)
    ∧ create_model ⟨4, 2, false⟩ true 1000
      = Except.ok
          { noise_initialized := true
            target_requires_grad := false
            replay_capacity := 1000 } :=
  ⟨(create_model_discrete_error ⟨4, 2, true⟩ false 1000).1 rfl,
   (create_model_discrete_error ⟨4, 2, false⟩ true 1000).2 rfl⟩

/-- C10: when an environment's episode length has reached `max_ep_len` at
the current step, the done flag pushed into the replay buffer for that
environment is `false` regardless of what the environment reported; a
stored `done = false` (cast to `0`) keeps the bootstrap term in every later
target computation: `y = r + γ·(1-0)·target_q = r + γ·target_q`. -/
theorem timeout_done_override (max_ep_len : ℕ) (episode_len : List ℕ)
    (done : List Bool) (i : ℕ) (d : Bool)
    (hlen : episode_len[i]? = some max_ep_len) (hd : done[i]? = some d) :
    (doneOverride max_ep_len episode_len done)[i]? = some false
    ∧ ∀ gamma r t : ℚ,
        (bellman_target gamma [r] [0] [t])[0]? = some (r + gamma * t) := by
  constructor
  · rw [doneOverride, List.getElem?_zipWith_eq_some]
    exact ⟨max_ep_len, d, hlen, hd, by simp⟩
  · intro gamma r t
    show some (r + gamma * (1 - 0) * t) = some (r + gamma * t)
    norm_num

theorem timeout_done_override_witness :
    (doneOverride 200 [200] [true])[0]? = some false
    ∧ ∀ gamma r t : ℚ,
        (bellman_target gamma [r] [0] [t])[0]? = some (r + gamma * t) :=
  timeout_done_override 200 [200] [true] 0 true rfl rfl

end TD3Spec
